import Mathlib

/-!
Verification development for the Silwer Lining booking backend's
availability-resolution core (backend/routes/public.py,
backend/routes/admin.py, backend/services/calendar.py).

The Python source is shallowly embedded: each relevant Python function
becomes a Lean definition operating on explicit state records; database
queries become lookups in lists carried by an environment record; the
external CalDAV provider becomes an explicit function parameter returning
`Except` values (an exception path in Python is the `.error` case).
Result-size caps of cursor reads (`.to_list(n)`) are not modelled: the
embedded queries return all matching documents.
-/

/- ===== Python string primitives used by the source ===== -/

/-- Whitespace, as stripped by Python's str.strip (ASCII subset; the
source only ever strips configuration strings). -/
def isSpaceChar (c : Char) : Bool :=
  c = ' ' || c = '\t' || c = '\n' || c = '\r' || c = Char.ofNat 11 || c = Char.ofNat 12

/-- Python str.strip: drop whitespace at both ends. -/
def pyStrip (s : List Char) : List Char :=
  ((s.dropWhile isSpaceChar).reverse.dropWhile isSpaceChar).reverse

/-- Python str.upper on the ASCII range (the slot strings are ASCII). -/
def pyUpper (s : List Char) : List Char := s.map Char.toUpper

/-- Python str.lower on the ASCII range. -/
def pyLower (s : List Char) : List Char := s.map Char.toLower

/-- Python substring containment (`needle in hay`). -/
def containsSub (needle : List Char) : List Char → Bool
  | [] => needle.isEmpty
  | c :: rest => needle.isPrefixOf (c :: rest) || containsSub needle rest

/-- Python str.replace(needle, ""): remove every non-overlapping
occurrence, scanning left to right.  Structural recursion on a fuel
argument (one unit per character scanned) so the kernel can evaluate it. -/
def removeAllAux (needle : List Char) : Nat → List Char → List Char
  | 0, _ => []
  | _ + 1, [] => []
  | fuel + 1, c :: rest =>
    if needle.isPrefixOf (c :: rest) then
      removeAllAux needle fuel (rest.drop (needle.length - 1))
    else
      c :: removeAllAux needle fuel rest

def removeAll (needle : List Char) (l : List Char) : List Char :=
  removeAllAux needle l.length l

/-- Python str.split(sep) for a one-character separator; always returns a
nonempty list ("" splits to [""]). -/
def splitOnChar (sep : Char) : List Char → List (List Char)
  | [] => [[]]
  | c :: rest =>
    let r := splitOnChar sep rest
    if c = sep then [] :: r
    else
      match r with
      | [] => [[c]]
      | p :: ps => (c :: p) :: ps

def isDigitChar (c : Char) : Bool := '0' ≤ c && c ≤ '9'

def digitsVal (l : List Char) : Nat :=
  l.foldl (fun a c => a * 10 + (c.toNat - '0'.toNat)) 0

/-- Python int(str) on decimal strings: optional surrounding whitespace,
optional sign, then a nonempty digit run; anything else raises, modelled
as none.  (Underscore digit grouping and non-ASCII digits, which Python
also accepts, are not modelled: no caller produces them.) -/
def pyInt (s : List Char) : Option Int :=
  let t := pyStrip s
  match t with
  | [] => none
  | c :: rest =>
    let sign : Int := if c = '-' then -1 else 1
    let ds := if c = '-' || c = '+' then rest else c :: rest
    if ds ≠ [] && ds.all isDigitChar then some (sign * (digitsVal ds : Int))
    else none

/- ===== services/calendar.py : parse_time_slot ===== -/

/-- Embedding of parse_time_slot (services/calendar.py).  Python's
`return None, None` (reached from the bare except) is the none case; the
successful return is some (hour, minute). -/
def parse_time_slot (time_str : String) : Option (Int × Int) :=
  let t0 := pyUpper (pyStrip time_str.toList)
  let is_pm := containsSub ['P', 'M'] t0
  let is_am := containsSub ['A', 'M'] t0
  let t1 := pyStrip (removeAll ['P', 'M'] (removeAll ['A', 'M'] t0))
  match splitOnChar ':' t1 with
  | [] => none
  | p0 :: rest =>
    match pyInt p0 with
    | none => none
    | some hour0 =>
      let minute? := match rest with
        | [] => some (0 : Int)
        | p1 :: _ => pyInt p1
      match minute? with
      | none => none
      | some minute =>
        let hour :=
          if is_pm && hour0 ≠ 12 then hour0 + 12
          else if is_am && hour0 = 12 then 0
          else hour0
        some (hour, minute)

/- ===== Dates (model of Python's datetime collaborator) ===== -/

def isLeap (y : Nat) : Bool := (y % 4 = 0 && y % 100 ≠ 0) || y % 400 = 0

def daysInMonth (y m : Nat) : Nat :=
  if m = 2 then (if isLeap y then 29 else 28)
  else if m = 4 || m = 6 || m = 9 || m = 11 then 30
  else 31

/-- Day count of a proleptic-Gregorian date, counted from 0000-03-01
(the standard days-from-civil algorithm); models datetime.date as an
absolute day index. -/
def daysFromCivil (y m d : Nat) : Nat :=
  let y2 := if m ≤ 2 then y - 1 else y
  let era := y2 / 400
  let yoe := y2 - era * 400
  let mp := (m + 9) % 12
  let doy := (153 * mp + 2) / 5 + d - 1
  let doe := yoe * 365 + yoe / 4 - yoe / 100 + doy
  era * 146097 + doe

/-- Python date.weekday(): Monday = 0 .. Sunday = 6.
(daysFromCivil 1970 1 1 = 719468 and 1970-01-01 was a Thursday = 3,
hence the +2 anchor.) -/
def pythonWeekday (y m d : Nat) : Nat := (daysFromCivil y m d + 2) % 7

/-- Python date.isoweekday() / ISO-8601 weekday: Monday = 1 .. Sunday = 7. -/
def isoWeekday (y m d : Nat) : Nat := pythonWeekday y m d + 1

/-- The day-id the route computes (public.py line 108-109):
day_of_week = date_obj.weekday(); day_id = (day_of_week + 1) % 7. -/
def dayIdOf (y m d : Nat) : Nat := (pythonWeekday y m d + 1) % 7

/-- Model of datetime.strptime(s, "%Y-%m-%d"): three dash-separated
digit groups (year up to 4 digits, month and day up to 2), month 1-12,
day within the month, year 1-9999; anything else raises (none). -/
def parseDate (s : String) : Option (Nat × Nat × Nat) :=
  match splitOnChar '-' s.toList with
  | [ys, ms, ds] =>
    if ys ≠ [] && ys.length ≤ 4 && ys.all isDigitChar &&
       ms ≠ [] && ms.length ≤ 2 && ms.all isDigitChar &&
       ds ≠ [] && ds.length ≤ 2 && ds.all isDigitChar then
      let y := digitsVal ys
      let m := digitsVal ms
      let d := digitsVal ds
      if 1 ≤ y && y ≤ 9999 && 1 ≤ m && m ≤ 12 && 1 ≤ d && d ≤ daysInMonth y m then
        some (y, m, d)
      else none
    else none
  | _ => none

/- ===== Sorting and deduplication (Python sorted(list(set(...)))) ===== -/

/-- Lexicographic code-point comparison, as Python compares strings. -/
def charListLt : List Char → List Char → Bool
  | [], [] => false
  | [], _ :: _ => true
  | _ :: _, [] => false
  | a :: as, b :: bs => a < b || (a = b && charListLt as bs)

def strLe (a b : String) : Bool := !(charListLt b.toList a.toList)

def insertSorted (x : String) : List String → List String
  | [] => [x]
  | y :: ys => if strLe x y then x :: y :: ys else y :: insertSorted x ys

def sortStrings (l : List String) : List String := l.foldr insertSorted []

/-- Python sorted(list(set(xs))): the sorted list of the distinct
elements of xs. -/
def pyDedupSort (xs : List String) : List String := sortStrings xs.dedup

/- ===== Booking settings and DB documents ===== -/

/-- Python dict modelled as an association list with distinct keys;
dictGet is dict.get(k), dictGetD is dict.get(k, d). -/
def dictGet {α : Type} (l : List (String × α)) (k : String) : Option α :=
  (l.find? (fun p => p.1 = k)).map (fun p => p.2)

def dictGetD {α : Type} (l : List (String × α)) (k : String) (d : α) : α :=
  (dictGet l k).getD d

/-- session type → (day-id string → slot strings); the stored
time_slot_schedule document field. -/
abbrev DaySched := List (String × List String)
abbrev TimeSlotSchedule := List (String × DaySched)

structure BookingSettingsDoc where
  blocked_dates : List String
  time_slot_schedule : TimeSlotSchedule
  weekend_surcharge : Int

/-- BookingSettings() model defaults (models.py lines 43-52; only the
fields the availability route reads). -/
def defaultBookingSettings : BookingSettingsDoc :=
  { blocked_dates := [], time_slot_schedule := [], weekend_surcharge := 750 }

structure CustomSlot where
  date : String
  time : String

structure BlockedSlotDoc where
  date : String
  time : String

structure BookingDoc where
  booking_date : String
  booking_time : String
  status : String

/-- str(day_id), the schedule key (public.py line 119). -/
def natKey (n : Nat) : String := toString n

/-- all_times.extend([s for s in day_slots if s not in all_times])
(public.py line 123): the comprehension tests membership against the
list as it was before the extend. -/
def extendDedup (acc : List String) (xs : List String) : List String :=
  acc ++ xs.filter (fun s => !(acc.contains s))

/-- The elif branch of public.py lines 120-124: union all session types'
slot lists for the day, then sorted(list(set(...))); an empty schedule
dict leaves all_times = []. -/
def unionAllTypes (sched : TimeSlotSchedule) (day_id : Nat) : List String :=
  if sched ≠ [] then
    pyDedupSort (sched.foldl (fun acc p => extendDedup acc (dictGetD p.2 (natKey day_id) [])) [])
  else []

/-- public.py lines 115-124: the schedule-derived slot list before
custom-slot overlay.  `if session_type and time_slot_schedule.get(session_type)`
is Python truthiness: a missing filter, empty string, missing entry or
empty entry dict all fall to the union branch. -/
def baseTimes (sched : TimeSlotSchedule) (session_type : Option String) (day_id : Nat) :
    List String :=
  match session_type with
  | some st =>
    if st ≠ "" then
      match dictGet sched st with
      | some dsched => if dsched ≠ [] then dictGetD dsched (natKey day_id) []
                       else unionAllTypes sched day_id
      | none => unionAllTypes sched day_id
    else unionAllTypes sched day_id
  | none => unionAllTypes sched day_id

/-- public.py lines 126-129: append each custom slot's time unless
already present (membership re-checked as the list grows). -/
def addCustoms (base : List String) (customs : List CustomSlot) : List String :=
  customs.foldl (fun acc cs => if acc.contains cs.time then acc else acc ++ [cs.time]) base

/- ===== services/calendar.py : CalDAV adapter ===== -/

/-- Python truthiness of a possibly-missing string field
(settings.get(k)): missing or empty is falsy. -/
def optStrTruthy : Option String → Bool
  | none => false
  | some s => !(s = "")

/-- Python `a or b` for a possibly-missing string: the stored value when
truthy, the default otherwise. -/
def pyOrDefault (a : Option String) (dflt : String) : String :=
  match a with
  | none => dflt
  | some s => if s = "" then dflt else s

def optVal (a : Option String) : String := a.getD ""

/-- A datetime value as the source uses it after datetime.fromisoformat:
an absolute day index (see daysFromCivil) plus hour and minute.  An
all-day event's date value round-trips through its ISO form to a
midnight datetime (hour = minute = 0). -/
structure PyDateTime where
  day : Nat
  hour : Nat
  minute : Nat

/-- A VEVENT as surfaced by the caldav/icalendar collaborators.  summary
is the post-default value of str(component.get('summary', 'Personal
Event')). -/
structure VEvent where
  summary : String
  dtstart : Option PyDateTime
  dtend : Option PyDateTime

/-- One calendar of the account, with the outcome of
calendar.search(...): the .error case is the per-calendar exception
path. -/
structure CalDavCalendar where
  name : String
  searchResult : Except String (List VEvent)

/-- The external provider: DAVClient(url, username, password) plus
principal().calendars(); .error is the connection exception path. -/
abbrev ConnectFn := String → String → String → Except String (List CalDavCalendar)

structure CalendarSettings where
  sync_enabled : Bool
  apple_calendar_url : Option String
  apple_calendar_user : Option String
  apple_calendar_password : Option String
  booking_calendar : String

/-- The self-created-booking test applied to an event summary
(calendar.py lines 99, 270, 400):
camera emoji in summary, or "silwerlining" in summary.lower(). -/
def isSelfCreated (summary : String) : Bool :=
  summary.toList.contains (Char.ofNat 0x1F4F8) ||
    containsSub ("silwerlining".toList) (pyLower summary.toList)

structure FetchedEvent where
  summary : String
  start : PyDateTime
  endDt : PyDateTime
  calendar_name : String
  is_work_calendar : Bool

/-- Embedding of get_events_from_all_calendars (calendar.py lines
71-120).  Events whose summary matches the self-created marker or that
lack a dtstart are dropped; a missing dtend falls back to dtstart; a
failing calendar is skipped; a failing connection yields []. -/
def get_events_from_all_calendars (settings : Option CalendarSettings)
    (connect : ConnectFn) : List FetchedEvent :=
  match settings with
  | none => []
  | some s =>
    if !(optStrTruthy s.apple_calendar_password) then []
    else
      let url := pyOrDefault s.apple_calendar_url "https://caldav.icloud.com"
      if !(optStrTruthy s.apple_calendar_user) || !(optStrTruthy s.apple_calendar_password) then []
      else
        match connect url (optVal s.apple_calendar_user) (optVal s.apple_calendar_password) with
        | .error _ => []
        | .ok calendars =>
          calendars.flatMap (fun cal =>
            match cal.searchResult with
            | .error _ => []
            | .ok evts =>
              evts.filterMap (fun ve =>
                if isSelfCreated ve.summary then none
                else
                  match ve.dtstart with
                  | none => none
                  | some st =>
                    some { summary := ve.summary, start := st,
                           endDt := ve.dtend.getD st,
                           calendar_name := cal.name,
                           is_work_calendar := cal.name = s.booking_calendar }))

/-- An hour:minute range blocking part of one date (the dicts built at
calendar.py lines 299-302 and 413-420). -/
structure BlockRange where
  start_hour : Int
  start_minute : Int
  end_hour : Int
  end_minute : Int

/-- The per-slot overlap test (calendar.py lines 311-317, likewise
admin.py is_cal_blocked lines 293-303): the slot occupies
[start, start + 2h) and blocks iff not (slot_end <= evt_start or
slot_start >= evt_end). -/
def slotOverlaps (slot_hour slot_minute : Int) (r : BlockRange) : Bool :=
  let slot_start := slot_hour * 60 + slot_minute
  let slot_end := (slot_hour + 2) * 60 + slot_minute
  let evt_start := r.start_hour * 60 + r.start_minute
  let evt_end := r.end_hour * 60 + r.end_minute
  !(decide (slot_end ≤ evt_start) || decide (slot_start ≥ evt_end))

/-- What one fetched event contributes to the requested date inside
get_calendar_blocked_times (calendar.py lines 268-305): skipped, a
whole-day early return of every slot, or one hour range. -/
inductive EvtAction where
  | skip
  | allBlock
  | range (r : BlockRange)

def evtAction (requested : Nat) (e : FetchedEvent) : EvtAction :=
  if isSelfCreated e.summary then .skip
  else if (e.start.hour = 0 && e.start.minute = 0 && e.endDt.hour = 0 && e.endDt.minute = 0)
       && (decide (e.start.day ≤ requested) && decide (requested < e.endDt.day)) then .allBlock
  else if e.start.day = requested && e.endDt.day = requested then
    .range ⟨e.start.hour, e.start.minute, e.endDt.hour, e.endDt.minute⟩
  else if e.start.day = requested then
    .range ⟨e.start.hour, e.start.minute, 23, 59⟩
  else if e.endDt.day = requested then
    .range ⟨0, 0, e.endDt.hour, e.endDt.minute⟩
  else if decide (e.start.day < requested) && decide (requested < e.endDt.day) then .allBlock
  else .skip

/-- Folds evtAction over the events: none models the early
`return time_slots` (a whole-day block), some gives the collected hour
ranges in event order. -/
def collectRanges (requested : Nat) : List FetchedEvent → Option (List BlockRange)
  | [] => some []
  | e :: rest =>
    match evtAction requested e with
    | .allBlock => none
    | .skip => collectRanges requested rest
    | .range r => (collectRanges requested rest).map (fun rs => r :: rs)

/-- Embedding of get_calendar_blocked_times (calendar.py lines 252-324)
for an already-parsed requested date (the route validated the date
string before calling). -/
def get_calendar_blocked_times (settings : Option CalendarSettings) (connect : ConnectFn)
    (requested : Nat) (time_slots : List String) : List String :=
  match settings with
  | none => []
  | some s =>
    if !s.sync_enabled then []
    else
      let events := get_events_from_all_calendars settings connect
      match collectRanges requested events with
      | none => time_slots
      | some ranges =>
        time_slots.filter (fun ts =>
          match parse_time_slot ts with
          | none => false
          | some (h, mn) => ranges.any (fun r => slotOverlaps h mn r))

/-- The cached per-date expansion of one (non-self-created) event
(get_cached_calendar_blocked_times, calendar.py lines 405-421): walk
every date the event touches, skip dates outside the queried range, and
record the hour range that date gets. -/
def rangesForEvent (evStart evEnd : PyDateTime) (start_date end_date : Nat) :
    List (Nat × BlockRange) :=
  (List.range (evEnd.day + 1 - evStart.day)).filterMap (fun i =>
    let ds := evStart.day + i
    if decide (ds < start_date) || decide (end_date < ds) then none
    else
      some (ds,
        if ds = evStart.day && ds = evEnd.day then
          ⟨evStart.hour, evStart.minute, evEnd.hour, evEnd.minute⟩
        else if ds = evStart.day then ⟨evStart.hour, evStart.minute, 23, 59⟩
        else if ds = evEnd.day then ⟨0, 0, evEnd.hour, evEnd.minute⟩
        else ⟨0, 0, 23, 59⟩))

/- ===== services/calendar.py : calendar cache TTL ===== -/

/-- The calendar_events_cache document; refreshed_at none models a
missing or empty field.  Timestamps are minutes. -/
structure FetchedEventsCache where
  events : List FetchedEvent
  refreshed_at : Option Int

/-- The staleness test of get_cached_calendar_blocked_times (calendar.py
lines 384-391): absent cache, absent refreshed_at, or refreshed more
than 15 minutes ago. -/
def cacheStale (cache : Option FetchedEventsCache) (now : Int) : Bool :=
  match cache with
  | none => true
  | some c =>
    match c.refreshed_at with
    | none => true
    | some r => decide (now - r > 15)

/-- One availability request's pass over the cache (calendar.py lines
381-391 plus refresh_calendar_cache lines 346-372, with sync enabled):
if stale, one synchronous external fetch refreshes the cache with
refreshed_at := now; otherwise the cache is served untouched.  The Bool
records whether the external fetch ran. -/
def serveFromCache (cache : Option FetchedEventsCache) (now : Int)
    (fetched : List FetchedEvent) : Option FetchedEventsCache × Bool :=
  if cacheStale cache now then (some { events := fetched, refreshed_at := some now }, true)
  else (cache, false)

/- ===== routes/public.py : get_available_times ===== -/

/-- The stored state the route reads.  blocked_slots is the DB
collection written by the admin blocked-slot endpoints; the
available-times route holds no query against it. -/
structure AvailEnv where
  booking_settings : Option BookingSettingsDoc
  custom_slots : List CustomSlot
  blocked_slots : List BlockedSlotDoc
  bookings : List BookingDoc
  calendar_settings : Option CalendarSettings
  connect : ConnectFn

structure AvailResult where
  date : String
  available_times : List String
  message : Option String
  is_weekend : Option Bool
  weekend_surcharge : Option Int
  session_type : Option String
  calendar_blocked : Option Bool

/-- db.custom_slots.find({"date": date}). -/
def customSlotsFor (env : AvailEnv) (date : String) : List CustomSlot :=
  env.custom_slots.filter (fun cs => cs.date = date)

/-- db.bookings.find({"booking_date": date, "status": {"$nin":
["cancelled"]}}) projected to booking_time (public.py lines 135-139). -/
def bookedTimesOf (env : AvailEnv) (date : String) : List String :=
  (env.bookings.filter (fun b => b.booking_date = date && !(b.status = "cancelled"))).map
    (fun b => b.booking_time)

/-- The blocked-slot times the admin stored for the date (what claim C1
calls the set of admin blocked slots). -/
def blockedSlotTimesOf (env : AvailEnv) (date : String) : List String :=
  (env.blocked_slots.filter (fun bs => bs.date = date)).map (fun bs => bs.time)

/-- The candidate slot list of public.py lines 114-130: schedule-derived
base, custom-slot overlay, then sorted(list(set(...))). -/
def allTimesOf (env : AvailEnv) (date : String) (session_type : Option String)
    (day_id : Nat) : List String :=
  let settings := env.booking_settings.getD defaultBookingSettings
  pyDedupSort
    (addCustoms (baseTimes settings.time_slot_schedule session_type day_id)
      (customSlotsFor env date))

/-- Embedding of the available-times route (public.py lines 97-150). -/
def get_available_times (env : AvailEnv) (date : String) (session_type : Option String) :
    AvailResult :=
  let settings := env.booking_settings.getD defaultBookingSettings
  if settings.blocked_dates.contains date then
    { date := date, available_times := [], message := some "This date is not available",
      is_weekend := none, weekend_surcharge := none, session_type := none,
      calendar_blocked := none }
  else
    match parseDate date with
    | none =>
      { date := date, available_times := [], message := some "Invalid date format",
        is_weekend := none, weekend_surcharge := none, session_type := none,
        calendar_blocked := none }
    | some (y, m, d) =>
      let day_id := dayIdOf y m d
      let is_weekend := day_id = 0 || day_id = 6
      let all_times := allTimesOf env date session_type day_id
      if all_times.isEmpty then
        { date := date, available_times := [],
          message := some "No time slots available for this day",
          is_weekend := some is_weekend, weekend_surcharge := none, session_type := none,
          calendar_blocked := none }
      else
        let booked_times := bookedTimesOf env date
        let calendar_blocked_times :=
          get_calendar_blocked_times env.calendar_settings env.connect
            (daysFromCivil y m d) all_times
        let available := all_times.filter
          (fun t => !(booked_times.contains t || calendar_blocked_times.contains t))
        { date := date, available_times := available, message := none,
          is_weekend := some is_weekend,
          weekend_surcharge := some (if is_weekend then settings.weekend_surcharge else 0),
          session_type := session_type,
          calendar_blocked := some (!calendar_blocked_times.isEmpty) }

/- ===== Concrete states used by witnesses and counterexamples ===== -/

/-- A connection that always fails (provider unreachable). -/
def failConnect : ConnectFn := fun _ _ _ => .error "connection refused"

def schedMonday : TimeSlotSchedule := [("maternity", [("1", ["09:00", "14:00"])])]

def settingsMonday : BookingSettingsDoc :=
  { blocked_dates := [], time_slot_schedule := schedMonday, weekend_surcharge := 750 }

/-- State for the C1 counterexample: the admin blocked 2026-03-16 09:00,
nothing else is in the way. -/
def envC1 : AvailEnv :=
  { booking_settings := some settingsMonday,
    custom_slots := [],
    blocked_slots := [{ date := "2026-03-16", time := "09:00" }],
    bookings := [],
    calendar_settings := none,
    connect := failConnect }

/-- State for the C1 witness: one confirmed booking at 09:00. -/
def envC1w : AvailEnv :=
  { booking_settings := some settingsMonday,
    custom_slots := [],
    blocked_slots := [],
    bookings := [{ booking_date := "2026-03-16", booking_time := "09:00",
                   status := "confirmed" }],
    calendar_settings := none,
    connect := failConnect }

/-- State for the C9 witness: a custom 07:30 slot outside the Monday
schedule. -/
def envC9 : AvailEnv :=
  { booking_settings := some settingsMonday,
    custom_slots := [{ date := "2026-03-16", time := "07:30" }],
    blocked_slots := [],
    bookings := [],
    calendar_settings := none,
    connect := failConnect }

def calSettingsNoUrl : CalendarSettings :=
  { sync_enabled := true, apple_calendar_url := none,
    apple_calendar_user := some "studio", apple_calendar_password := some "secret",
    booking_calendar := "" }

def dentistEvent : VEvent :=
  { summary := "Dentist",
    dtstart := some { day := daysFromCivil 2026 3 16, hour := 10, minute := 0 },
    dtend := some { day := daysFromCivil 2026 3 16, hour := 12, minute := 0 } }

/-- A reachable provider holding one ordinary event on 2026-03-16,
10:00-12:00. -/
def dentistConnect : ConnectFn := fun _ _ _ =>
  .ok [{ name := "personal", searchResult := .ok [dentistEvent] }]

def calPersonal : CalDavCalendar := { name := "personal", searchResult := .ok [dentistEvent] }

def dentistStart : PyDateTime := { day := daysFromCivil 2026 3 16, hour := 10, minute := 0 }

/-- The event record get_events_from_all_calendars appends for one kept
VEVENT (calendar.py lines 106-112). -/
def mkFetched (s : CalendarSettings) (cal : CalDavCalendar) (ve : VEvent)
    (st : PyDateTime) : FetchedEvent :=
  { summary := ve.summary, start := st, endDt := ve.dtend.getD st,
    calendar_name := cal.name, is_work_calendar := cal.name = s.booking_calendar }

/-- The degradation conditions of the adapter that force an empty fetch:
settings row absent, password or username missing/empty, or the
provider connection raising. -/
def adapterDegraded (settings : Option CalendarSettings) (connect : ConnectFn) : Bool :=
  match settings with
  | none => true
  | some s =>
    !(optStrTruthy s.apple_calendar_password) ||
    !(optStrTruthy s.apple_calendar_user) ||
    (match connect (pyOrDefault s.apple_calendar_url "https://caldav.icloud.com")
        (optVal s.apple_calendar_user) (optVal s.apple_calendar_password) with
     | .error _ => true
     | .ok _ => false)

/-- State for the C6 witness: credentials set, provider unreachable, one
confirmed 09:00 booking. -/
def envC6 : AvailEnv :=
  { booking_settings := some settingsMonday,
    custom_slots := [],
    blocked_slots := [],
    bookings := [{ booking_date := "2026-03-16", booking_time := "09:00",
                   status := "confirmed" }],
    calendar_settings := some calSettingsNoUrl,
    connect := failConnect }

def r_c3 : BlockRange := { start_hour := 10, start_minute := 0, end_hour := 12, end_minute := 0 }

def schedC10 : TimeSlotSchedule :=
  [("maternity", [("1", ["09:00"])]), ("studio", [("1", ["14:00", "09:00"])])]

/- ===== Shared membership lemmas ===== -/

theorem mem_insertSorted (a x : String) (l : List String) :
    a ∈ insertSorted x l ↔ a = x ∨ a ∈ l := by
  induction l with
  | nil => simp [insertSorted]
  | cons y ys ih =>
    simp only [insertSorted]
    split
    · simp
    · simp only [List.mem_cons, ih]
      tauto

theorem mem_sortStrings (a : String) (l : List String) :
    a ∈ sortStrings l ↔ a ∈ l := by
  induction l with
  | nil => simp [sortStrings]
  | cons x xs ih =>
    simp only [sortStrings, List.foldr_cons] at *
    rw [mem_insertSorted]
    simp [ih]

theorem mem_pyDedupSort (a : String) (l : List String) :
    a ∈ pyDedupSort l ↔ a ∈ l := by
  rw [pyDedupSort, mem_sortStrings, List.mem_dedup]

theorem mem_addCustoms (t : String) (base : List String) (customs : List CustomSlot) :
    t ∈ addCustoms base customs ↔ t ∈ base ∨ t ∈ customs.map (fun cs => cs.time) := by
  induction customs generalizing base with
  | nil => simp [addCustoms]
  | cons c cl ih =>
    simp only [addCustoms, List.foldl_cons] at *
    rw [ih]
    split
    · rename_i hc
      rw [List.elem_iff] at hc
      simp only [List.map_cons, List.mem_cons]
      constructor
      · tauto
      · rintro (h | h | h) <;> try tauto
        subst h
        exact Or.inl hc
    · simp only [List.mem_append, List.mem_singleton, List.map_cons, List.mem_cons]
      tauto

theorem mem_unionAllTypes (t : String) (sched : TimeSlotSchedule) (day_id : Nat) :
    t ∈ unionAllTypes sched day_id ↔
      ∃ p ∈ sched, t ∈ dictGetD p.2 (natKey day_id) [] := by
  have hfold : ∀ (l : TimeSlotSchedule) (acc : List String),
      t ∈ l.foldl (fun acc p => extendDedup acc (dictGetD p.2 (natKey day_id) [])) acc ↔
        t ∈ acc ∨ ∃ p ∈ l, t ∈ dictGetD p.2 (natKey day_id) [] := by
    intro l
    induction l with
    | nil => simp
    | cons q ql ih =>
      intro acc
      rw [List.foldl_cons, ih]
      have hext : t ∈ extendDedup acc (dictGetD q.2 (natKey day_id) []) ↔
          t ∈ acc ∨ t ∈ dictGetD q.2 (natKey day_id) [] := by
        simp only [extendDedup, List.mem_append, List.mem_filter]
        constructor
        · rintro (h | ⟨h, _⟩) <;> tauto
        · rintro (h | h)
          · exact Or.inl h
          · by_cases hacc : t ∈ acc
            · exact Or.inl hacc
            · exact Or.inr ⟨h, by simpa [List.elem_iff] using hacc⟩
      rw [hext]
      simp only [List.mem_cons]
      constructor
      · rintro ((h | h) | ⟨p, hp, hm⟩)
        · exact Or.inl h
        · exact Or.inr ⟨q, Or.inl rfl, h⟩
        · exact Or.inr ⟨p, Or.inr hp, hm⟩
      · rintro (h | ⟨p, (hp | hp), hm⟩)
        · exact Or.inl (Or.inl h)
        · subst hp
          exact Or.inl (Or.inr hm)
        · exact Or.inr ⟨p, hp, hm⟩
  rw [unionAllTypes]
  split
  · rw [mem_pyDedupSort, hfold]
    simp
  · rename_i hempty
    have hnil : sched = [] := not_not.mp hempty
    subst hnil
    simp

theorem contains_false_iff (l : List String) (a : String) :
    l.contains a = false ↔ a ∉ l := by
  constructor
  · intro h hm
    have hc : l.contains a = true := List.elem_iff.mpr hm
    rw [h] at hc
    cases hc
  · intro h
    cases hc : l.contains a
    · rfl
    · exact absurd (List.elem_iff.mp hc) h

/- ===== Claim C2 : parse_time_slot totality and ranges ===== -/

/-- C2, counterexample: parse_time_slot "25:00" returns the pair
(25, 0), whose hour lies outside 0-23, and not the null pair — the code
performs no range validation, refuting the claimed 0-23/0-59 guarantee. -/
theorem claim2_counterexample :
    parse_time_slot "25:00" = some (25, 0) ∧ (23 : Int) < 25 :=
  ⟨by decide, by decide⟩

/-- C2, amended: for every input string parse_time_slot returns either
an integer pair (whose components need not lie within 0-23/0-59) or the
null pair, never raising; the spec's examples hold: "2:00 PM" gives
(14, 0), "09:00" gives (9, 0), "garbage" gives the null pair. -/
theorem claim2_parse_total :
    (∀ s : String,
        parse_time_slot s = none ∨ ∃ h m : Int, parse_time_slot s = some (h, m)) ∧
    parse_time_slot "2:00 PM" = some (14, 0) ∧
    parse_time_slot "09:00" = some (9, 0) ∧
    parse_time_slot "garbage" = none := by
  refine ⟨fun s => ?_, by decide, by decide, by decide⟩
  cases h : parse_time_slot s with
  | none => exact Or.inl rfl
  | some p =>
    obtain ⟨a, b⟩ := p
    exact Or.inr ⟨a, b, rfl⟩

/- ===== Claim C8 : day-id formula ===== -/

/-- C8, counterexample: for 2026-03-15 (a Sunday, ISO weekday 7) the
claimed formula (iso_weekday + 1) mod 7 gives 1, but the code's day-id
for that date is 0 — the code applies +1 to Python's weekday()
(Monday = 0), not to the ISO weekday (Monday = 1). -/
theorem claim8_counterexample :
    isoWeekday 2026 3 15 = 7 ∧ (isoWeekday 2026 3 15 + 1) % 7 = 1 ∧
    dayIdOf 2026 3 15 = 0 ∧ (1 : Nat) ≠ 0 :=
  ⟨by decide, by decide, by decide, by decide⟩

/-- C8, amended: the day-id is (python_weekday + 1) mod 7 with Python's
Monday = 0 convention, which equals iso_weekday mod 7 (0 = Sunday);
2026-03-15 (Sunday) gets day-id 0 and 2026-03-16 (Monday) day-id 1. -/
theorem claim8_day_id :
    (∀ y m d : Nat, dayIdOf y m d = isoWeekday y m d % 7) ∧
    dayIdOf 2026 3 15 = 0 ∧ dayIdOf 2026 3 16 = 1 :=
  ⟨fun _ _ _ => rfl, by decide, by decide⟩

/- ===== Claim C3 : half-open overlap semantics ===== -/

/-- C3: a candidate slot is blocked by a busy interval iff its 2-hour
window [T, T+2h) intersects the (nonempty) interval
[B_start, B_end) — and a window that ends exactly at B_start, or starts
exactly at B_end, is not blocked by it. -/
theorem claim3_overlap_iff (slot_hour slot_minute : Int) (r : BlockRange)
    (hne : r.start_hour * 60 + r.start_minute < r.end_hour * 60 + r.end_minute) :
    (slotOverlaps slot_hour slot_minute r = true ↔
      ∃ t : Int,
        (slot_hour * 60 + slot_minute ≤ t ∧ t < (slot_hour + 2) * 60 + slot_minute) ∧
        (r.start_hour * 60 + r.start_minute ≤ t ∧
          t < r.end_hour * 60 + r.end_minute)) ∧
    ((slot_hour + 2) * 60 + slot_minute = r.start_hour * 60 + r.start_minute →
      slotOverlaps slot_hour slot_minute r = false) ∧
    (slot_hour * 60 + slot_minute = r.end_hour * 60 + r.end_minute →
      slotOverlaps slot_hour slot_minute r = false) := by
  have hb : slotOverlaps slot_hour slot_minute r = true ↔
      (r.start_hour * 60 + r.start_minute < (slot_hour + 2) * 60 + slot_minute ∧
       slot_hour * 60 + slot_minute < r.end_hour * 60 + r.end_minute) := by
    simp only [slotOverlaps, Bool.not_eq_true', Bool.or_eq_false_iff,
      decide_eq_false_iff_not, not_le]
  refine ⟨?_, ?_, ?_⟩
  · rw [hb]
    constructor
    · rintro ⟨h1, h2⟩
      rcases le_total (slot_hour * 60 + slot_minute) (r.start_hour * 60 + r.start_minute)
        with hle | hle
      · exact ⟨r.start_hour * 60 + r.start_minute, ⟨hle, h1⟩, ⟨le_refl _, hne⟩⟩
      · exact ⟨slot_hour * 60 + slot_minute, ⟨le_refl _, by omega⟩, ⟨hle, h2⟩⟩
    · rintro ⟨t, ⟨ha, hb2⟩, ⟨hc, hd⟩⟩
      omega
  · intro heq
    simp only [slotOverlaps, Bool.not_eq_false', Bool.or_eq_true, decide_eq_true_iff]
    omega
  · intro heq
    simp only [slotOverlaps, Bool.not_eq_false', Bool.or_eq_true, decide_eq_true_iff]
    omega

/-- C3 witness: the theorem applied to the 09:00 slot and the
10:00-12:00 busy interval. -/
theorem claim3_overlap_iff_witness :
    (r_c3.start_hour * 60 + r_c3.start_minute < r_c3.end_hour * 60 + r_c3.end_minute) ∧
    ((slotOverlaps 9 0 r_c3 = true ↔
      ∃ t : Int,
        ((9 : Int) * 60 + 0 ≤ t ∧ t < ((9 : Int) + 2) * 60 + 0) ∧
        (r_c3.start_hour * 60 + r_c3.start_minute ≤ t ∧
          t < r_c3.end_hour * 60 + r_c3.end_minute)) ∧
    (((9 : Int) + 2) * 60 + 0 = r_c3.start_hour * 60 + r_c3.start_minute →
      slotOverlaps 9 0 r_c3 = false) ∧
    ((9 : Int) * 60 + 0 = r_c3.end_hour * 60 + r_c3.end_minute →
      slotOverlaps 9 0 r_c3 = false)) :=
  ⟨by decide, claim3_overlap_iff 9 0 r_c3 (by decide)⟩

/- ===== Claim C5 : cache TTL ===== -/

/-- C5: a request fetches from the provider exactly when the cache is
absent or refreshed more than 15 minutes ago; after a refresh at t0,
two further requests within 15 minutes of t0 trigger no fetch. -/
theorem claim5_cache_ttl (t0 t1 t2 : Int) (f0 f1 f2 : List FetchedEvent)
    (h1 : t1 - t0 ≤ 15) (h2 : t2 - t0 ≤ 15) :
    (∀ (cache : Option FetchedEventsCache) (now : Int) (fetched : List FetchedEvent),
        (serveFromCache cache now fetched).2 = true ↔ cacheStale cache now = true) ∧
    (serveFromCache none t0 f0).2 = true ∧
    (serveFromCache (serveFromCache none t0 f0).1 t1 f1).2 = false ∧
    (serveFromCache (serveFromCache (serveFromCache none t0 f0).1 t1 f1).1 t2 f2).2
      = false := by
  have hiff : ∀ (cache : Option FetchedEventsCache) (now : Int)
      (fetched : List FetchedEvent),
      (serveFromCache cache now fetched).2 = true ↔ cacheStale cache now = true := by
    intro cache now fetched
    rw [serveFromCache]
    split <;> simp_all
  have hs1 : serveFromCache none t0 f0 = (some { events := f0, refreshed_at := some t0 }, true) := by
    simp [serveFromCache, cacheStale]
  have hstale1 : cacheStale (some { events := f0, refreshed_at := some t0 }) t1 = false := by
    simp only [cacheStale, decide_eq_false_iff_not]
    omega
  have hs2 : serveFromCache (some { events := f0, refreshed_at := some t0 }) t1 f1 =
      (some { events := f0, refreshed_at := some t0 }, false) := by
    simp [serveFromCache, hstale1]
  have hstale2 : cacheStale (some { events := f0, refreshed_at := some t0 }) t2 = false := by
    simp only [cacheStale, decide_eq_false_iff_not]
    omega
  refine ⟨hiff, by rw [hs1], by rw [hs1, hs2], ?_⟩
  rw [hs1, hs2]
  simp [serveFromCache, hstale2]

/-- C5 witness: the theorem applied to a refresh at minute 0 and
requests at minutes 10 and 15. -/
theorem claim5_cache_ttl_witness :
    ((10 : Int) - 0 ≤ 15) ∧ ((15 : Int) - 0 ≤ 15) ∧
    ((∀ (cache : Option FetchedEventsCache) (now : Int) (fetched : List FetchedEvent),
        (serveFromCache cache now fetched).2 = true ↔ cacheStale cache now = true) ∧
     (serveFromCache none 0 ([] : List FetchedEvent)).2 = true ∧
     (serveFromCache (serveFromCache none 0 ([] : List FetchedEvent)).1 10 []).2 = false ∧
     (serveFromCache (serveFromCache (serveFromCache none 0 ([] : List FetchedEvent)).1
        10 []).1 15 []).2 = false) :=
  ⟨by decide, by decide, claim5_cache_ttl 0 10 15 [] [] [] (by decide) (by decide)⟩

/- ===== Claim C10 : session-type fallback to the union branch ===== -/

/-- C10: when a session_type filter is supplied but the stored schedule
has no non-empty entry for it (missing key or empty day dict, both falsy
in Python), the schedule-derived candidate list is the union branch:
the deduplicated, lexicographically sorted union of every session
type's slot list for the day-id. -/
theorem claim10_union_fallback (sched : TimeSlotSchedule) (st : String) (day_id : Nat)
    (h : dictGet sched st = none ∨ dictGet sched st = some []) :
    baseTimes sched (some st) day_id = unionAllTypes sched day_id ∧
    ∀ t, t ∈ unionAllTypes sched day_id ↔
      ∃ p ∈ sched, t ∈ dictGetD p.2 (natKey day_id) [] := by
  refine ⟨?_, fun t => mem_unionAllTypes t sched day_id⟩
  rw [baseTimes]
  by_cases hst : st = ""
  · simp [hst]
  · rcases h with h | h <;> simp [hst, h]

/-- C10 witness: the theorem applied to a schedule with maternity and
studio entries and the unlisted session type newborn. -/
theorem claim10_union_fallback_witness :
    (dictGet schedC10 "newborn" = none ∨ dictGet schedC10 "newborn" = some []) ∧
    (baseTimes schedC10 (some "newborn") 1 = unionAllTypes schedC10 1 ∧
     ∀ t, t ∈ unionAllTypes schedC10 1 ↔
       ∃ p ∈ schedC10, t ∈ dictGetD p.2 (natKey 1) []) :=
  ⟨by decide, claim10_union_fallback schedC10 "newborn" 1 (by decide)⟩

/- ===== Claim C9 : custom slots are additive ===== -/

/-- C9: every custom slot stored for the queried date is in the
candidate slot list (deduplicated by the membership check and the final
sorted(list(set(...)))) before the booked and calendar-blocked exclusion
filters run, whatever the recurring schedule holds. -/
theorem claim9_custom_added (env : AvailEnv) (date : String)
    (session_type : Option String) (day_id : Nat) (cs : CustomSlot)
    (hcs : cs ∈ env.custom_slots) (hd : cs.date = date) :
    cs.time ∈ allTimesOf env date session_type day_id := by
  rw [allTimesOf, mem_pyDedupSort, mem_addCustoms]
  refine Or.inr (List.mem_map.mpr ⟨cs, ?_, rfl⟩)
  rw [customSlotsFor, List.mem_filter]
  exact ⟨hcs, by simp [hd]⟩

/-- C9 witness: the theorem applied to the 07:30 custom slot of envC9,
which the Monday schedule does not contain. -/
theorem claim9_custom_added_witness :
    ({ date := "2026-03-16", time := "07:30" } : CustomSlot) ∈ envC9.custom_slots ∧
    ({ date := "2026-03-16", time := "07:30" } : CustomSlot).date = "2026-03-16" ∧
    "07:30" ∈ allTimesOf envC9 "2026-03-16" (some "maternity") 1 :=
  ⟨List.mem_singleton.mpr rfl, rfl,
    claim9_custom_added envC9 "2026-03-16" (some "maternity") 1
      { date := "2026-03-16", time := "07:30" } (List.mem_singleton.mpr rfl) rfl⟩

/- ===== Claim C4 : multi-day event expansion ===== -/

/-- C4: for an event spanning more than one day, the per-date busy
intervals derived by the cache path are exactly: on the start date, from
the event's start time to end-of-day (23:59); on the end date, from
start-of-day (00:00) to the event's end time; and on every date strictly
between, the whole day (00:00-23:59) — restricted to the queried date
range. -/
theorem claim4_multiday (s e : PyDateTime) (rs re : Nat) (hmulti : s.day < e.day)
    (d : Nat) (r : BlockRange) :
    (d, r) ∈ rangesForEvent s e rs re ↔
      (rs ≤ d ∧ d ≤ re) ∧
      ((d = s.day ∧ r = { start_hour := (s.hour : Int), start_minute := (s.minute : Int),
                          end_hour := 23, end_minute := 59 }) ∨
       (d = e.day ∧ r = { start_hour := 0, start_minute := 0,
                          end_hour := (e.hour : Int), end_minute := (e.minute : Int) }) ∨
       (s.day < d ∧ d < e.day ∧
        r = { start_hour := 0, start_minute := 0, end_hour := 23, end_minute := 59 })) := by
  rw [rangesForEvent, List.mem_filterMap]
  constructor
  · rintro ⟨i, hi, hf⟩
    rw [List.mem_range] at hi
    dsimp only at hf
    split at hf
    · exact absurd hf (by simp)
    · rename_i hcond
      simp only [Bool.or_eq_true, decide_eq_true_iff, not_or] at hcond
      rw [Option.some.injEq, Prod.mk.injEq] at hf
      obtain ⟨hdi, hri⟩ := hf
      subst hdi
      refine ⟨⟨by omega, by omega⟩, ?_⟩
      by_cases h0 : i = 0
      · subst h0
        left
        rw [Nat.add_zero] at hri ⊢
        have hne : ¬(s.day = e.day) := by omega
        refine ⟨rfl, ?_⟩
        rw [← hri, if_neg (by simp [hne]), if_pos rfl]
      · by_cases hlast : s.day + i = e.day
        · right; left
          have h1 : ¬(s.day + i = s.day) := by omega
          refine ⟨hlast, ?_⟩
          rw [← hri, if_neg (by simp [h1]), if_neg h1, if_pos hlast]
        · right; right
          have h1 : ¬(s.day + i = s.day) := by omega
          refine ⟨by omega, by omega, ?_⟩
          rw [← hri, if_neg (by simp [h1]), if_neg h1, if_neg hlast]
  · rintro ⟨⟨hrs, hre⟩, hcase⟩
    rcases hcase with ⟨hd, hr⟩ | ⟨hd, hr⟩ | ⟨hd1, hd2, hr⟩
    · subst hd
      subst hr
      refine ⟨0, by rw [List.mem_range]; omega, ?_⟩
      dsimp only
      rw [Nat.add_zero]
      have hne : ¬(s.day = e.day) := by omega
      rw [if_neg (by simp; omega), if_neg (by simp [hne]), if_pos rfl]
    · subst hd
      subst hr
      refine ⟨e.day - s.day, by rw [List.mem_range]; omega, ?_⟩
      dsimp only
      have heq : s.day + (e.day - s.day) = e.day := by omega
      rw [heq]
      have hne : ¬(e.day = s.day) := by omega
      rw [if_neg (by simp; omega), if_neg (by simp [hne]), if_neg hne, if_pos rfl]
    · subst hr
      refine ⟨d - s.day, by rw [List.mem_range]; omega, ?_⟩
      dsimp only
      have heq : s.day + (d - s.day) = d := by omega
      rw [heq]
      have hne1 : ¬(d = s.day) := by omega
      have hne2 : ¬(d = e.day) := by omega
      rw [if_neg (by simp; omega), if_neg (by simp [hne1]), if_neg hne1, if_neg hne2]

/-- C4 witness: the theorem applied to an event running from day 100
09:30 to day 103 17:45, evaluated at the strictly-between day 101. -/
theorem claim4_multiday_witness :
    ((100 : Nat) < 103) ∧
    (((101 : Nat),
        ({ start_hour := 0, start_minute := 0, end_hour := 23, end_minute := 59 } : BlockRange)) ∈
          rangesForEvent { day := 100, hour := 9, minute := 30 }
            { day := 103, hour := 17, minute := 45 } 0 1000 ↔
      ((0 : Nat) ≤ 101 ∧ (101 : Nat) ≤ 1000) ∧
      (((101 : Nat) = 100 ∧
          ({ start_hour := 0, start_minute := 0, end_hour := 23, end_minute := 59 } : BlockRange) =
            { start_hour := ((9 : Nat) : Int), start_minute := ((30 : Nat) : Int),
              end_hour := 23, end_minute := 59 }) ∨
       ((101 : Nat) = 103 ∧
          ({ start_hour := 0, start_minute := 0, end_hour := 23, end_minute := 59 } : BlockRange) =
            { start_hour := 0, start_minute := 0,
              end_hour := ((17 : Nat) : Int), end_minute := ((45 : Nat) : Int) }) ∨
       ((100 : Nat) < 101 ∧ (101 : Nat) < 103 ∧
          ({ start_hour := 0, start_minute := 0, end_hour := 23, end_minute := 59 } : BlockRange) =
            { start_hour := 0, start_minute := 0, end_hour := 23, end_minute := 59 }))) :=
  ⟨by decide,
    claim4_multiday { day := 100, hour := 9, minute := 30 }
      { day := 103, hour := 17, minute := 45 } 0 1000 (by decide) 101
      { start_hour := 0, start_minute := 0, end_hour := 23, end_minute := 59 }⟩

/- ===== Claim C7 : self-created booking marker filter ===== -/

/-- C7: a fetched event is dropped exactly when its summary matches the
self-created marker — it contains the camera emoji, or it contains
"silwerlining" case-insensitively (the test lowercases the summary);
every kept event fails the marker and every non-matching event with a
dtstart is kept. -/
theorem claim7_marker (s : CalendarSettings) (connect : ConnectFn)
    (cals : List CalDavCalendar) (cal : CalDavCalendar) (evts : List VEvent)
    (ve : VEvent) (st : PyDateTime)
    (hu : optStrTruthy s.apple_calendar_user = true)
    (hp : optStrTruthy s.apple_calendar_password = true)
    (hconn : connect (pyOrDefault s.apple_calendar_url "https://caldav.icloud.com")
        (optVal s.apple_calendar_user) (optVal s.apple_calendar_password) = .ok cals)
    (hcal : cal ∈ cals) (hsearch : cal.searchResult = .ok evts) (hve : ve ∈ evts)
    (hkeep : isSelfCreated ve.summary = false) (hst : ve.dtstart = some st) :
    (∀ fe, fe ∈ get_events_from_all_calendars (some s) connect →
        isSelfCreated fe.summary = false) ∧
    mkFetched s cal ve st ∈ get_events_from_all_calendars (some s) connect ∧
    isSelfCreated "SILWERLINING shoot" = true ∧
    isSelfCreated (String.mk [Char.ofNat 0x1F4F8]) = true ∧
    isSelfCreated "Dentist" = false := by
  refine ⟨?_, ?_, by decide, by decide, by decide⟩
  · intro fe hfe
    rw [get_events_from_all_calendars] at hfe
    rw [hp] at hfe
    simp only [Bool.not_true, Bool.false_eq_true, if_false] at hfe
    rw [hu] at hfe
    simp only [Bool.not_true, Bool.false_or, Bool.false_eq_true, if_false] at hfe
    rw [hconn] at hfe
    rw [List.mem_flatMap] at hfe
    obtain ⟨cal2, _, hfe2⟩ := hfe
    cases hres : cal2.searchResult with
    | error err =>
      rw [hres] at hfe2
      simp at hfe2
    | ok evts2 =>
      rw [hres] at hfe2
      rw [List.mem_filterMap] at hfe2
      obtain ⟨v, _, hsome⟩ := hfe2
      by_cases hsc : isSelfCreated v.summary = true
      · simp [hsc] at hsome
      · simp only [Bool.not_eq_true] at hsc
        rw [hsc] at hsome
        simp only [Bool.false_eq_true, if_false] at hsome
        cases hdt : v.dtstart with
        | none => rw [hdt] at hsome; cases hsome
        | some stv =>
          rw [hdt] at hsome
          rw [Option.some.injEq] at hsome
          subst hsome
          exact hsc
  · rw [get_events_from_all_calendars, hp]
    simp only [Bool.not_true, Bool.false_eq_true, if_false]
    rw [hu]
    simp only [Bool.not_true, Bool.false_or, Bool.false_eq_true, if_false]
    rw [hconn, List.mem_flatMap]
    refine ⟨cal, hcal, ?_⟩
    rw [hsearch, List.mem_filterMap]
    refine ⟨ve, hve, ?_⟩
    rw [hkeep]
    simp only [Bool.false_eq_true, if_false]
    rw [hst]
    rfl

/-- C7 witness: the theorem applied to the reachable one-calendar
provider and its kept Dentist event. -/
theorem claim7_marker_witness :
    isSelfCreated dentistEvent.summary = false ∧
    mkFetched calSettingsNoUrl calPersonal dentistEvent dentistStart ∈
      get_events_from_all_calendars (some calSettingsNoUrl) dentistConnect :=
  ⟨by decide,
    (claim7_marker calSettingsNoUrl dentistConnect [calPersonal] calPersonal
      [dentistEvent] dentistEvent dentistStart (by decide) (by decide) rfl
      (List.mem_singleton.mpr rfl) rfl (List.mem_singleton.mpr rfl) (by decide)
      rfl).2.1⟩

/- ===== Claim C6 : credential absence and provider failure ===== -/

/-- C6, counterexample: with the URL credential absent but username and
password present, the adapter does not return an empty busy-interval
result — it falls back to the default iCloud URL, fetches, and here
returns one event whose 10:00-12:00 interval blocks the 09:00 slot.
Only username/password absence (or a fetch failure) short-circuits. -/
theorem claim6_counterexample :
    calSettingsNoUrl.apple_calendar_url = none ∧
    (get_events_from_all_calendars (some calSettingsNoUrl) dentistConnect).length = 1 ∧
    get_calendar_blocked_times (some calSettingsNoUrl) dentistConnect
      (daysFromCivil 2026 3 16) ["09:00", "14:00"] = ["09:00"] :=
  ⟨rfl, by decide, by decide⟩

/-- C6, amended: if the username or password credential is absent (the
URL falls back to the iCloud default), or the provider connection
fails, the adapter returns an empty busy-interval result, and the
overall availability request still succeeds with the same response as
with sync disabled. -/
theorem claim6_degraded (env : AvailEnv) (date : String) (st : Option String)
    (h : adapterDegraded env.calendar_settings env.connect = true) :
    get_events_from_all_calendars env.calendar_settings env.connect = [] ∧
    (∀ requested slots,
        get_calendar_blocked_times env.calendar_settings env.connect requested slots = []) ∧
    get_available_times env date st =
      get_available_times { env with calendar_settings := none } date st := by
  have hev : get_events_from_all_calendars env.calendar_settings env.connect = [] := by
    cases hset : env.calendar_settings with
    | none => rfl
    | some s =>
      rw [get_events_from_all_calendars]
      rw [hset] at h
      simp only [adapterDegraded] at h
      by_cases hpw : optStrTruthy s.apple_calendar_password = true
      · by_cases hus : optStrTruthy s.apple_calendar_user = true
        · rw [hpw, hus] at h
          simp only [Bool.not_true, Bool.false_or] at h
          cases hc : env.connect (pyOrDefault s.apple_calendar_url "https://caldav.icloud.com")
              (optVal s.apple_calendar_user) (optVal s.apple_calendar_password) with
          | error err =>
            rw [hpw]
            simp only [Bool.not_true, Bool.false_eq_true, if_false]
            rw [hus]
            simp only [Bool.not_true, Bool.false_or, Bool.false_eq_true, if_false]
            rw [hc]
          | ok cals =>
            rw [hc] at h
            simp at h
        · simp only [Bool.not_eq_true] at hus
          rw [hpw]
          simp only [Bool.not_true, Bool.false_eq_true, if_false]
          rw [hus]
          rfl
      · simp only [Bool.not_eq_true] at hpw
        rw [hpw]
        rfl
  have hcal : ∀ requested slots,
      get_calendar_blocked_times env.calendar_settings env.connect requested slots = [] := by
    intro requested slots
    cases hset : env.calendar_settings with
    | none => rfl
    | some s =>
      rw [get_calendar_blocked_times]
      by_cases hsync : s.sync_enabled = true
      · rw [hsync]
        simp only [Bool.not_true, Bool.false_eq_true, if_false]
        rw [hset] at hev
        rw [hev]
        simp only [collectRanges]
        rw [List.filter_eq_nil_iff]
        intro ts _
        cases hpt : parse_time_slot ts with
        | none => simp
        | some p =>
          obtain ⟨hh, mm⟩ := p
          simp
      · simp only [Bool.not_eq_true] at hsync
        rw [hsync]
        rfl
  refine ⟨hev, hcal, ?_⟩
  by_cases hbd : ((env.booking_settings.getD defaultBookingSettings).blocked_dates.contains date) = true
  · rw [get_available_times, get_available_times]
    simp only [hbd]
    rfl
  · simp only [Bool.not_eq_true] at hbd
    cases hpd : parseDate date with
    | none =>
      rw [get_available_times, get_available_times]
      simp only [hbd, Bool.false_eq_true, if_false]
      rw [hpd]
    | some t =>
      obtain ⟨y, rest⟩ := t
      obtain ⟨m, d⟩ := rest
      rw [get_available_times, get_available_times]
      simp only [hbd, Bool.false_eq_true, if_false]
      rw [hpd]
      simp only []
      rw [hcal (daysFromCivil y m d)]
      have hnone : ∀ requested slots2,
          get_calendar_blocked_times none env.connect requested slots2 = [] := by
        intro _ _
        rfl
      rw [hnone (daysFromCivil y m d)]
      rfl

/-- C6 witness: the theorem applied to envC6, whose provider is
unreachable. -/
theorem claim6_degraded_witness :
    adapterDegraded envC6.calendar_settings envC6.connect = true ∧
    (get_events_from_all_calendars envC6.calendar_settings envC6.connect = [] ∧
     (∀ requested slots,
        get_calendar_blocked_times envC6.calendar_settings envC6.connect requested slots
          = []) ∧
     get_available_times envC6 "2026-03-16" (some "maternity") =
       get_available_times { envC6 with calendar_settings := none } "2026-03-16"
         (some "maternity")) :=
  ⟨by decide, claim6_degraded envC6 "2026-03-16" (some "maternity") (by decide)⟩

/- ===== Claim C1 : the availability invariant ===== -/

/-- C1, counterexample: the admin blocked 2026-03-16 09:00 in envC1, yet
the single-date availability query still returns 09:00 — the route never
queries the blocked_slots collection, refuting the claimed "absent from
the set of admin blocked slots" conjunct. -/
theorem claim1_counterexample :
    "09:00" ∈ (get_available_times envC1 "2026-03-16" (some "maternity")).available_times ∧
    "09:00" ∈ blockedSlotTimesOf envC1 "2026-03-16" :=
  ⟨by decide, by decide⟩

/-- C1, amended: for every parseable date not in the settings'
blocked_dates, a time slot is in available_times iff it is in the
resolved candidate list (recurring schedule plus custom slots) and
absent from the booked non-cancelled times and absent from the
calendar-blocked times; admin blocked slots play no part in this
route. -/
theorem claim1_available_iff (env : AvailEnv) (date : String)
    (session_type : Option String) (y m d : Nat)
    (hpd : parseDate date = some (y, m, d))
    (hnb : (env.booking_settings.getD defaultBookingSettings).blocked_dates.contains date
      = false) (t : String) :
    t ∈ (get_available_times env date session_type).available_times ↔
      (t ∈ allTimesOf env date session_type (dayIdOf y m d) ∧
       t ∉ bookedTimesOf env date ∧
       t ∉ get_calendar_blocked_times env.calendar_settings env.connect
             (daysFromCivil y m d)
             (allTimesOf env date session_type (dayIdOf y m d))) := by
  rw [get_available_times]
  rw [hnb]
  simp only [Bool.false_eq_true, if_false]
  rw [hpd]
  by_cases hemp : (allTimesOf env date session_type (dayIdOf y m d)).isEmpty = true
  · rw [List.isEmpty_iff] at hemp
    simp [hemp]
  · simp only [Bool.not_eq_true] at hemp
    simp only [hemp, Bool.false_eq_true, if_false]
    rw [List.mem_filter]
    simp only [Bool.not_eq_true', Bool.or_eq_false_iff]
    constructor
    · rintro ⟨hmem, hbk, hcb⟩
      exact ⟨hmem, (contains_false_iff _ _).mp hbk, (contains_false_iff _ _).mp hcb⟩
    · rintro ⟨hmem, hbk, hcb⟩
      exact ⟨hmem, (contains_false_iff _ _).mpr hbk, (contains_false_iff _ _).mpr hcb⟩

/-- C1 witness: the amended theorem applied to envC1w (one confirmed
09:00 booking) at slot 09:00. -/
theorem claim1_available_iff_witness :
    parseDate "2026-03-16" = some (2026, 3, 16) ∧
    (envC1w.booking_settings.getD defaultBookingSettings).blocked_dates.contains
      "2026-03-16" = false ∧
    ("09:00" ∈ (get_available_times envC1w "2026-03-16" (some "maternity")).available_times ↔
      ("09:00" ∈ allTimesOf envC1w "2026-03-16" (some "maternity") (dayIdOf 2026 3 16) ∧
       "09:00" ∉ bookedTimesOf envC1w "2026-03-16" ∧
       "09:00" ∉ get_calendar_blocked_times envC1w.calendar_settings envC1w.connect
           (daysFromCivil 2026 3 16)
           (allTimesOf envC1w "2026-03-16" (some "maternity") (dayIdOf 2026 3 16)))) :=
  ⟨by decide, by decide,
    claim1_available_iff envC1w "2026-03-16" (some "maternity") 2026 3 16 (by decide)
      (by decide) "09:00"⟩
